import Mathlib

/-!
Shallow embedding of the grocery-app REST backend (TypeScript/Next.js) and
proofs about its request-authorization and data-isolation pipeline.

The embedding follows the source files:
  - `src/lib/repositories/grocery-item.repository.ts` (PostgresGroceryItemRepository)
  - `src/lib/repositories/user.repository.ts`         (PostgresUserRepository)
  - `src/lib/utils/validation.ts`                     (Zod schemas)
  - `src/lib/services/grocery-item.service.ts`        (GroceryItemServiceImpl)
  - `src/lib/services/auth.service.ts`                (AuthServiceImpl, Zod generation)
  - `src/lib/auth/jwt.ts`, `src/lib/auth/middleware.ts`
  - `src/app/api/grocery-items/route.ts`, `src/app/api/grocery-items/[id]/route.ts`
  - `init.sql` (grocery_items / users schema)

The PostgreSQL table is modelled as a list of rows plus a serial counter and
a clock; each repository method is an executable function on that state.
JavaScript strings are modelled as Lean `String` (length = number of chars),
JS numbers carrying ids/quantities as `Int`, timestamps as `Nat`.
External collaborators (the `jsonwebtoken` and `bcryptjs` libraries, Zod's
e-mail format check) enter as explicit parameters or small models noted at
their definitions.
-/

/-! ## Error taxonomy

Modelled from the spec: the repository's `src/lib/utils/errors.ts` is not in
the source snapshot (only its importers are). Section 7 of the spec defines
the closed taxonomy and its status codes: ValidationError 400,
AuthenticationError 401, ConflictError 409, NotFoundError 404,
DatabaseError 500; handlers catch by kind and map to status + message.
The constructor messages used below all come from throw sites in the
source files. -/
inductive AppError where
  | validationError (msg : String)
  | authenticationError (msg : String)
  | conflictError (msg : String)
  | notFoundError (msg : String)
  | databaseError (msg : String)
  deriving DecidableEq, Repr

/-- Modelled from the spec: status-code field of the error classes in the
missing `src/lib/utils/errors.ts`, per section 7 of the spec. -/
def AppError.statusCode : AppError → Nat
  | .validationError _ => 400
  | .authenticationError _ => 401
  | .conflictError _ => 409
  | .notFoundError _ => 404
  | .databaseError _ => 500

def AppError.message : AppError → String
  | .validationError m => m
  | .authenticationError m => m
  | .conflictError m => m
  | .notFoundError m => m
  | .databaseError m => m

/-- A thrown JavaScript error: either one of the typed `AppError` classes or
a plain `new Error(msg)` (as thrown by `validateRequestBody` in
`src/lib/utils/validation.ts`). -/
inductive JsError where
  | appError (e : AppError)
  | plainError (msg : String)
  deriving DecidableEq, Repr

def JsError.isNotFound : JsError → Bool
  | .appError (.notFoundError _) => true
  | _ => false

def JsError.isAuthentication : JsError → Bool
  | .appError (.authenticationError _) => true
  | _ => false

instance {ε α : Type} [DecidableEq ε] [DecidableEq α] : DecidableEq (Except ε α) :=
  fun x y =>
    match x, y with
    | .ok a, .ok b =>
      if h : a = b then isTrue (by rw [h])
      else isFalse (by intro hh; injection hh; contradiction)
    | .error e, .error f =>
      if h : e = f then isTrue (by rw [h])
      else isFalse (by intro hh; injection hh; contradiction)
    | .ok _, .error _ => isFalse (by intro hh; exact Except.noConfusion hh)
    | .error _, .ok _ => isFalse (by intro hh; exact Except.noConfusion hh)

/-! ## Data model (`src/lib/types/grocery-item.types.ts` callers and `init.sql`) -/

/-- A row of the `grocery_items` table (`init.sql`): the table has a `store`
column even though, as proved below, the repository never writes it. -/
structure GroceryItemRow where
  id : Int
  user_id : Int
  name : String
  quantity : Int
  store : Option String
  category : Option String
  notes : Option String
  is_purchased : Bool
  created_at : Nat
  updated_at : Nat
  deriving DecidableEq, Repr

/-- The in-memory `GroceryItem` object produced by
`PostgresGroceryItemRepository.mapDbRowToGroceryItem`; note the mapping
(and the repository's SELECT lists) carries no `store` field. -/
structure GroceryItem where
  id : Int
  userId : Int
  name : String
  quantity : Int
  category : Option String
  notes : Option String
  isPurchased : Bool
  createdAt : Nat
  updatedAt : Nat
  deriving DecidableEq, Repr

/-- Embeds `GroceryItemResponse`: the item view returned to clients,
`GroceryItem` minus `userId` (see `toGroceryItemResponse`). -/
structure GroceryItemResponse where
  id : Int
  name : String
  quantity : Int
  category : Option String
  notes : Option String
  isPurchased : Bool
  createdAt : Nat
  updatedAt : Nat
  deriving DecidableEq, Repr

/-- Embeds `CreateGroceryItemRequest`: `none` models an absent (undefined) field. -/
structure CreateGroceryItemRequest where
  name : String
  quantity : Option Int
  store : Option String
  category : Option String
  notes : Option String
  deriving DecidableEq, Repr

/-- Embeds `UpdateGroceryItemRequest`: a sparse patch, `none` = field absent. -/
structure UpdateGroceryItemRequest where
  name : Option String
  quantity : Option Int
  store : Option String
  category : Option String
  notes : Option String
  isPurchased : Option Bool
  deriving DecidableEq, Repr

/-- Embeds `GroceryItemFilters` for `findByUserId`. -/
structure GroceryItemFilters where
  store : Option String
  category : Option String
  isPurchased : Option Bool
  search : Option String
  deriving DecidableEq, Repr

/-- State of the `grocery_items` table: its rows (in physical order, inserts
append), the `SERIAL` id counter, and the database clock
(`CURRENT_TIMESTAMP`). -/
structure ItemDb where
  rows : List GroceryItemRow
  nextId : Int
  now : Nat
  deriving DecidableEq, Repr

/-! ## Zod validation (`src/lib/utils/validation.ts`)

`validateRequestBody(schema, data)` runs `schema.safeParse(data)` and, on
failure, throws a plain `Error` whose message is `"Validation failed: "`
followed by the issue messages joined with `", "`. Zod collects the issues
of an object schema key by key in declaration order, and runs a `.refine`
refinement only when the base object parse succeeded. -/

/-- Issue messages of `createGroceryItemSchema` on a request, in schema key
order (name, quantity, store, category, notes). The `quantity` field is
modelled as `Int`, so Zod's `.int()` check is implicit in the type. -/
def createItemIssues (d : CreateGroceryItemRequest) : List String :=
  (if d.name.length < 1 then ["Item name is required"] else []) ++
  (if 255 < d.name.length then ["Item name must be 255 characters or less"] else []) ++
  (match d.quantity with
    | some q => if q < 1 then ["Quantity must be at least 1"] else []
    | none => []) ++
  (match d.store with
    | some s => if 255 < s.length then ["Store name must be 255 characters or less"] else []
    | none => []) ++
  (match d.category with
    | some c => if 100 < c.length then ["Category must be 100 characters or less"] else []
    | none => []) ++
  (match d.notes with
    | some n => if 1000 < n.length then ["Notes must be 1000 characters or less"] else []
    | none => [])

/-- Output of a successful `createGroceryItemSchema.parse`: the request with
`quantity` defaulted to 1 (`.optional().default(1)`). -/
structure ValidatedCreateItem where
  name : String
  quantity : Int
  store : Option String
  category : Option String
  notes : Option String
  deriving DecidableEq, Repr

def validateCreateItem (d : CreateGroceryItemRequest) :
    Except JsError ValidatedCreateItem :=
  match createItemIssues d with
  | [] => .ok { name := d.name, quantity := d.quantity.getD 1,
                store := d.store, category := d.category, notes := d.notes }
  | issues => .error (.plainError ("Validation failed: " ++ String.intercalate ", " issues))

/-- Issue messages of the base object of `updateGroceryItemSchema`. -/
def updateItemIssues (u : UpdateGroceryItemRequest) : List String :=
  (match u.name with
    | some n =>
      (if n.length < 1 then ["Item name cannot be empty"] else []) ++
      (if 255 < n.length then ["Item name must be 255 characters or less"] else [])
    | none => []) ++
  (match u.quantity with
    | some q => if q < 1 then ["Quantity must be at least 1"] else []
    | none => []) ++
  (match u.store with
    | some s => if 255 < s.length then ["Store name must be 255 characters or less"] else []
    | none => []) ++
  (match u.category with
    | some c => if 100 < c.length then ["Category must be 100 characters or less"] else []
    | none => []) ++
  (match u.notes with
    | some n => if 1000 < n.length then ["Notes must be 1000 characters or less"] else []
    | none => [])

/-- True when the patch has at least one present field: the
`Object.keys(data).length > 0` refinement of `updateGroceryItemSchema`. -/
def updateHasField (u : UpdateGroceryItemRequest) : Bool :=
  u.name.isSome || u.quantity.isSome || u.store.isSome ||
  u.category.isSome || u.notes.isSome || u.isPurchased.isSome

def validateUpdateItem (u : UpdateGroceryItemRequest) :
    Except JsError UpdateGroceryItemRequest :=
  match updateItemIssues u with
  | [] =>
    if updateHasField u then .ok u
    else .error (.plainError
      "Validation failed: At least one field must be provided for update")
  | issues => .error (.plainError ("Validation failed: " ++ String.intercalate ", " issues))

/-- Issue messages of `groceryItemFiltersSchema`. -/
def filtersIssues (f : GroceryItemFilters) : List String :=
  (match f.store with
    | some s => if 255 < s.length then ["Store filter must be 255 characters or less"] else []
    | none => []) ++
  (match f.category with
    | some c => if 100 < c.length then ["Category filter must be 100 characters or less"] else []
    | none => []) ++
  (match f.search with
    | some s => if 255 < s.length then ["Search term must be 255 characters or less"] else []
    | none => [])

def validateFilters (f : GroceryItemFilters) : Except JsError GroceryItemFilters :=
  match filtersIssues f with
  | [] => .ok f
  | issues => .error (.plainError ("Validation failed: " ++ String.intercalate ", " issues))

/-- Embeds `idSchema`: `z.number().int().positive('ID must be a positive integer')`. -/
def validateId (id : Int) : Except JsError Unit :=
  if 0 < id then .ok ()
  else .error (.plainError "Validation failed: ID must be a positive integer")

/-! ## Grocery item repository
(`PostgresGroceryItemRepository` in `src/lib/repositories/grocery-item.repository.ts`) -/

def mapDbRowToGroceryItem (row : GroceryItemRow) : GroceryItem :=
  { id := row.id, userId := row.user_id, name := row.name,
    quantity := row.quantity, category := row.category, notes := row.notes,
    isPurchased := row.is_purchased, createdAt := row.created_at,
    updatedAt := row.updated_at }

/-- JS `x || null` on an optional string: an absent or empty (falsy) string
becomes NULL. Used for the `category || null` / `notes || null` insert
parameters of `create`. -/
def jsOrNull (x : Option String) : Option String :=
  match x with
  | some s => if s = "" then none else some s
  | none => none

namespace GroceryRepo

/-- Embeds `create(userId, itemData)`: INSERT lists only
`(user_id, name, quantity, category, notes)` — the `store` column is never
written, so the new row gets the schema default NULL. The `quantity > 0`
CHECK of `init.sql` is modelled as a `DatabaseError` on violation. -/
def create (db : ItemDb) (userId : Int) (itemData : ValidatedCreateItem) :
    Except JsError GroceryItem × ItemDb :=
  if itemData.quantity ≤ 0 then
    (.error (.appError (.databaseError "insert violates quantity check")), db)
  else
    let row : GroceryItemRow :=
      { id := db.nextId, user_id := userId, name := itemData.name,
        quantity := itemData.quantity, store := none,
        category := jsOrNull itemData.category, notes := jsOrNull itemData.notes,
        is_purchased := false, created_at := db.now, updated_at := db.now }
    (.ok (mapDbRowToGroceryItem row),
     { db with rows := db.rows ++ [row], nextId := db.nextId + 1 })

/-- Row predicate of the `WHERE id = $ AND user_id = $` clauses. -/
def rowMatches (id userId : Int) (r : GroceryItemRow) : Bool :=
  r.id == id && r.user_id == userId

/-- Embeds `findById(id, userId)`: single-row SELECT scoped by id AND user_id. -/
def findById (db : ItemDb) (id userId : Int) : Option GroceryItem :=
  (db.rows.find? (rowMatches id userId)).map mapDbRowToGroceryItem

/-- Character-list helper for ILIKE: does the text start with the pattern. -/
def startsWithChars : List Char → List Char → Bool
  | [], _ => true
  | _ :: _, [] => false
  | p :: ps, t :: ts => p == t && startsWithChars ps ts

/-- Character-list helper for ILIKE: does the pattern occur in the text. -/
def containsChars (pat : List Char) : List Char → Bool
  | [] => pat.isEmpty
  | c :: ts => startsWithChars pat (c :: ts) || containsChars pat ts

/-- Embeds `x ILIKE '%pat%'`: case-insensitive substring test. -/
def ilikeContains (text pat : String) : Bool :=
  containsChars pat.toLower.data text.toLower.data

/-- The filter clauses `findByUserId` appends for a row: a `category`
clause when `filters?.category` is truthy (present and non-empty), an
`is_purchased` clause when `filters?.isPurchased !== undefined`, and a
`name ILIKE OR notes ILIKE` clause when `filters?.search` is truthy.
No clause ever reads `filters.store`. -/
def rowPassesFilters (filters : Option GroceryItemFilters) (r : GroceryItemRow) : Bool :=
  match filters with
  | none => true
  | some f =>
    (match f.category with
      | some c => if c = "" then true else r.category == some c
      | none => true) &&
    (match f.isPurchased with
      | some b => r.is_purchased == b
      | none => true) &&
    (match f.search with
      | some s =>
        if s = "" then true
        else ilikeContains r.name s ||
          (match r.notes with
            | some n => ilikeContains n s
            | none => false)
      | none => true)

/-- Insert a row into a list sorted by descending `created_at`. -/
def insertByCreatedDesc (r : GroceryItemRow) : List GroceryItemRow → List GroceryItemRow
  | [] => [r]
  | x :: xs =>
    if x.created_at < r.created_at then r :: x :: xs
    else x :: insertByCreatedDesc r xs

/-- Embeds `ORDER BY created_at DESC`. -/
def sortByCreatedDesc : List GroceryItemRow → List GroceryItemRow
  | [] => []
  | r :: rs => insertByCreatedDesc r (sortByCreatedDesc rs)

/-- Embeds `findByUserId(userId, filters?)`: rows of the user passing every
appended filter clause, newest-created first. -/
def findByUserId (db : ItemDb) (userId : Int) (filters : Option GroceryItemFilters) :
    List GroceryItem :=
  (sortByCreatedDesc ((db.rows.filter
      (fun r => r.user_id == userId && rowPassesFilters filters r)))).map
    mapDbRowToGroceryItem

/-- One `field = $n` entry of the dynamic SET clause built by `update`. -/
inductive FieldSet where
  | setName (v : String)
  | setQuantity (v : Int)
  | setCategory (v : String)
  | setNotes (v : String)
  | setIsPurchased (v : Bool)
  deriving DecidableEq, Repr

/-- The `updateFields` list `update` builds, in source order
(name, quantity, category, notes, isPurchased). There is no branch for
`store`: the source never adds a `store = $n` entry. -/
def buildUpdateFields (u : UpdateGroceryItemRequest) : List FieldSet :=
  (match u.name with | some v => [.setName v] | none => []) ++
  (match u.quantity with | some v => [.setQuantity v] | none => []) ++
  (match u.category with | some v => [.setCategory v] | none => []) ++
  (match u.notes with | some v => [.setNotes v] | none => []) ++
  (match u.isPurchased with | some v => [.setIsPurchased v] | none => [])

/-- Apply one SET entry to a row. -/
def applyFieldSet (r : GroceryItemRow) : FieldSet → GroceryItemRow
  | .setName v => { r with name := v }
  | .setQuantity v => { r with quantity := v }
  | .setCategory v => { r with category := some v }
  | .setNotes v => { r with notes := some v }
  | .setIsPurchased v => { r with is_purchased := v }

/-- Apply the whole SET clause, including `updated_at = CURRENT_TIMESTAMP`
(the `init.sql` trigger refreshes the same column in the same write). -/
def applySetClause (fs : List FieldSet) (now : Nat) (r : GroceryItemRow) : GroceryItemRow :=
  { fs.foldl applyFieldSet r with updated_at := now }

/-- Embeds `update(id, userId, updateData)`: builds the dynamic SET list; with no
entries it throws `DatabaseError('No fields to update')` before touching
the store; the UPDATE is scoped by id AND user_id, `rowCount === 0` becomes
`NotFoundError('Grocery item not found')`, and the first RETURNING row is
mapped back. -/
def update (db : ItemDb) (id userId : Int) (u : UpdateGroceryItemRequest) :
    Except JsError GroceryItem × ItemDb :=
  let fs := buildUpdateFields u
  if fs.isEmpty then
    (.error (.appError (.databaseError "No fields to update")), db)
  else
    match (db.rows.filter (rowMatches id userId)).head? with
    | none => (.error (.appError (.notFoundError "Grocery item not found")), db)
    | some first =>
      (.ok (mapDbRowToGroceryItem (applySetClause fs db.now first)),
       { db with rows := (db.rows.map
           (fun r => if rowMatches id userId r then applySetClause fs db.now r else r)) })

/-- Embeds `delete(id, userId)`: scoped DELETE, returns whether any row went. -/
def del (db : ItemDb) (id userId : Int) : Bool × ItemDb :=
  (db.rows.any (rowMatches id userId),
   { db with rows := db.rows.filter (fun r => !(rowMatches id userId r)) })

end GroceryRepo

/-! ## Grocery item service
(`GroceryItemServiceImpl` in `src/lib/services/grocery-item.service.ts`,
the Zod-validation generation, which is the one the named source file and
the spec's section 9 designate as canonical) -/

/-- Embeds `toGroceryItemResponse`: strips `userId` from the item view. -/
def toGroceryItemResponse (item : GroceryItem) : GroceryItemResponse :=
  { id := item.id, name := item.name, quantity := item.quantity,
    category := item.category, notes := item.notes,
    isPurchased := item.isPurchased, createdAt := item.createdAt,
    updatedAt := item.updatedAt }

/-- Embeds `createItem(userId, itemData)`: Zod validation, then repository create,
then the user-facing view. -/
def createItem (userId : Int) (itemData : CreateGroceryItemRequest) (db : ItemDb) :
    Except JsError GroceryItemResponse × ItemDb :=
  match validateCreateItem itemData with
  | .error e => (.error e, db)
  | .ok v =>
    match GroceryRepo.create db userId v with
    | (.error e, db2) => (.error e, db2)
    | (.ok item, db2) => (.ok (toGroceryItemResponse item), db2)

/-- Embeds `getItem(id, userId)`: id validation, scoped lookup,
`NotFoundError` when no row matches both conditions. -/
def getItem (db : ItemDb) (id userId : Int) : Except JsError GroceryItemResponse :=
  match validateId id with
  | .error e => .error e
  | .ok _ =>
    match GroceryRepo.findById db id userId with
    | none => .error (.appError (.notFoundError "Grocery item not found"))
    | some item => .ok (toGroceryItemResponse item)

/-- Embeds `getUserItems(userId, filters?)`: filter validation when filters are
given, then the scoped filtered listing. -/
def getUserItems (db : ItemDb) (userId : Int) (filters : Option GroceryItemFilters) :
    Except JsError (List GroceryItemResponse) :=
  match filters with
  | none => .ok ((GroceryRepo.findByUserId db userId none).map toGroceryItemResponse)
  | some f =>
    match validateFilters f with
    | .error e => .error e
    | .ok vf => .ok ((GroceryRepo.findByUserId db userId (some vf)).map toGroceryItemResponse)

/-- Embeds `updateItem(id, userId, updateData)`: id and patch validation, then the
scoped repository update. -/
def updateItem (id userId : Int) (u : UpdateGroceryItemRequest) (db : ItemDb) :
    Except JsError GroceryItemResponse × ItemDb :=
  match validateId id with
  | .error e => (.error e, db)
  | .ok _ =>
    match validateUpdateItem u with
    | .error e => (.error e, db)
    | .ok v =>
      match GroceryRepo.update db id userId v with
      | (.error e, db2) => (.error e, db2)
      | (.ok item, db2) => (.ok (toGroceryItemResponse item), db2)

/-- Embeds `deleteItem(id, userId)`: id validation, scoped delete,
`NotFoundError` when nothing was deleted. -/
def deleteItem (id userId : Int) (db : ItemDb) : Except JsError Unit × ItemDb :=
  match validateId id with
  | .error e => (.error e, db)
  | .ok _ =>
    match GroceryRepo.del db id userId with
    | (deleted, db2) =>
      if deleted then (.ok (), db2)
      else (.error (.appError (.notFoundError "Grocery item not found")), db2)

/-! ## Users and authentication
(`src/lib/repositories/user.repository.ts`, `src/lib/auth/jwt.ts`,
`src/lib/auth/middleware.ts`, `src/lib/services/auth.service.ts`) -/

/-- The `User` view of `src/lib/types/auth.types.ts` (no password hash). -/
structure User where
  id : Int
  email : String
  createdAt : Nat
  updatedAt : Nat
  deriving DecidableEq, Repr

/-- A row of the `users` table (`init.sql`). -/
structure UserRow where
  id : Int
  email : String
  password_hash : String
  created_at : Nat
  updated_at : Nat
  deriving DecidableEq, Repr

def userOfRow (r : UserRow) : User :=
  { id := r.id, email := r.email, createdAt := r.created_at, updatedAt := r.updated_at }

namespace UserRepo

/-- Embeds `findByEmail(email)`: first row with the given e-mail, hash stripped. -/
def findByEmail (users : List UserRow) (email : String) : Option User :=
  (users.find? (fun r => r.email == email)).map userOfRow

/-- Embeds `findById(id)`: first row with the given id, hash stripped. -/
def findById (users : List UserRow) (id : Int) : Option User :=
  (users.find? (fun r => r.id == id)).map userOfRow

/-- Embeds `findByIdWithPassword(id)`: first row with the given id, hash kept. -/
def findByIdWithPassword (users : List UserRow) (id : Int) : Option UserRow :=
  users.find? (fun r => r.id == id)

end UserRepo

/-- Claims carried by a token (`JWTPayload` in `auth.types.ts`). -/
structure JWTPayload where
  userId : Int
  email : String
  deriving DecidableEq, Repr

/-- Model of a decoded JWT as used by the `jsonwebtoken` library:
`signedWith` records which secret produced the signature (a signature check
succeeds exactly for that secret), and `exp` is the expiry timestamp that
`jwt.sign` derives from its `expiresIn` option (both tokens issued by
`generateTokens` carry one). -/
structure JwtToken where
  userId : Int
  email : String
  signedWith : String
  exp : Nat
  deriving DecidableEq, Repr

/-- The two error classes of the `jsonwebtoken` library distinguished by
`verifyToken`: `TokenExpiredError` and its superclass `JsonWebTokenError`
(signature failure or malformed encoding). -/
inductive JwtError where
  | tokenExpiredError
  | jsonWebTokenError
  deriving DecidableEq, Repr

/-- Model of `jwt.verify(token, secret)` from the `jsonwebtoken` library as
called by `verifyToken`: decoding (the `decode` parameter models base64/JSON
parsing; `none` = malformed) and the signature check precede the expiry
check; an expired token fails with `TokenExpiredError`, a malformed or
wrongly signed one with `JsonWebTokenError`. -/
def jwtVerify (decode : String → Option JwtToken) (secret : String) (now : Nat)
    (token : String) : Except JwtError JWTPayload :=
  match decode token with
  | none => .error .jsonWebTokenError
  | some t =>
    if t.signedWith ≠ secret then .error .jsonWebTokenError
    else if t.exp < now then .error .tokenExpiredError
    else .ok { userId := t.userId, email := t.email }

/-- Embeds `verifyToken(token)` in `src/lib/auth/jwt.ts`: wraps `jwt.verify`,
mapping `TokenExpiredError` to `AuthenticationError('Token has expired')`
and `JsonWebTokenError` to `AuthenticationError('Invalid token')`. -/
def verifyToken (decode : String → Option JwtToken) (secret : String) (now : Nat)
    (token : String) : Except AppError JWTPayload :=
  match jwtVerify decode secret now token with
  | .ok p => .ok p
  | .error .tokenExpiredError => .error (.authenticationError "Token has expired")
  | .error .jsonWebTokenError => .error (.authenticationError "Invalid token")

/-- Splitter for JS `authHeader.split(' ')`: splits on every single space,
keeping empty pieces, as `String.prototype.split` does. -/
def splitSpAux : List Char → List Char → List String
  | cur, [] => [String.mk cur.reverse]
  | cur, c :: cs =>
    if c = ' ' then String.mk cur.reverse :: splitSpAux [] cs
    else splitSpAux (c :: cur) cs

def jsSplitSpace (s : String) : List String := splitSpAux [] s.data

/-- Embeds `extractTokenFromHeader(authHeader)` in `src/lib/auth/jwt.ts`. -/
def extractTokenFromHeader (authHeader : Option String) : Except AppError String :=
  match authHeader with
  | none => .error (.authenticationError "Authorization header missing")
  | some s =>
    match jsSplitSpace s with
    | [scheme, tok] =>
      if scheme = "Bearer" then .ok tok
      else .error (.authenticationError "Invalid authorization header format")
    | _ => .error (.authenticationError "Invalid authorization header format")

/-- Embeds `AuthServiceImpl.validateUser(userId)`: re-resolves the token subject in
the credential store; a missing user is an `AuthenticationError`. -/
def validateUser (users : List UserRow) (userId : Int) : Except AppError User :=
  match UserRepo.findById users userId with
  | none => .error (.authenticationError "User not found")
  | some u => .ok u

/-- An inbound HTTP request as far as authentication is concerned. -/
structure ApiRequest where
  authHeader : Option String
  deriving DecidableEq, Repr

/-- The catch block of `authenticate`: an `AuthenticationError` is
re-thrown, anything else becomes `AuthenticationError('Authentication
failed')`. -/
def wrapAuthError (e : AppError) : AppError :=
  match e with
  | .authenticationError m => .authenticationError m
  | _ => .authenticationError "Authentication failed"

/-- The try-block of `authenticate(request)` in
`src/lib/auth/middleware.ts`: extract the bearer token, verify it, then
resolve the subject user in the store. -/
def authenticateRaw (decode : String → Option JwtToken) (users : List UserRow)
    (secret : String) (now : Nat) (req : ApiRequest) : Except AppError User :=
  match extractTokenFromHeader req.authHeader with
  | .error e => .error e
  | .ok token =>
    match verifyToken decode secret now token with
    | .error e => .error e
    | .ok payload => validateUser users payload.userId

/-- Embeds `authenticate(request)`: the try-block under its catch. -/
def authenticate (decode : String → Option JwtToken) (users : List UserRow)
    (secret : String) (now : Nat) (req : ApiRequest) : Except AppError User :=
  match authenticateRaw decode users secret now req with
  | .ok u => .ok u
  | .error e => .error (wrapAuthError e)

/-- An HTTP response as produced by the route handlers: status, the
`{error}` body of failures, and the `item` payload of single-item
successes. -/
structure HttpResponse where
  status : Nat
  error : Option String
  item : Option GroceryItemResponse
  deriving DecidableEq, Repr

/-- The catch block of `withAuth`: an `AuthenticationError` becomes a
response with its status code and message, anything else a 500. -/
def authFailResponse (e : AppError) : HttpResponse :=
  match e with
  | .authenticationError m => { status := 401, error := some m, item := none }
  | _ => { status := 500, error := some "Internal server error", item := none }

/-- Embeds `withAuth(handler)` in `src/lib/auth/middleware.ts`: run `authenticate`;
only on success is the wrapped handler invoked, with the resolved user. -/
def withAuth (decode : String → Option JwtToken) (users : List UserRow)
    (secret : String) (now : Nat)
    (handler : User → ItemDb → HttpResponse × ItemDb)
    (req : ApiRequest) (db : ItemDb) : HttpResponse × ItemDb :=
  match authenticate decode users secret now req with
  | .error e => (authFailResponse e, db)
  | .ok user => handler user db

/-- Embeds `generateTokens(userId, email)` in `src/lib/auth/jwt.ts`: two tokens
over identical claims, signed with the configured secret, differing only in
expiry (`jwtExpiresIn` vs `refreshTokenExpiresIn`). -/
structure AuthTokens where
  accessToken : JwtToken
  refreshToken : JwtToken
  deriving DecidableEq, Repr

def generateTokens (secret : String) (now accessTtl refreshTtl : Nat)
    (userId : Int) (email : String) : AuthTokens :=
  { accessToken := { userId := userId, email := email, signedWith := secret,
                     exp := now + accessTtl },
    refreshToken := { userId := userId, email := email, signedWith := secret,
                      exp := now + refreshTtl } }

/-- Issue messages of `loginSchema`: the Zod e-mail format check is the
`emailOk` parameter (external library predicate), the password check is
`min(1)`. -/
def loginIssues (emailOk : String → Bool) (email password : String) : List String :=
  (if emailOk email then [] else ["Invalid email format"]) ++
  (if password.length < 1 then ["Password is required"] else [])

/-- Embeds `AuthServiceImpl.login(loginData)` (Zod generation): validate, look the
user up by e-mail, re-fetch by id (`?.id || 0`) with the hash, and fail with
one identical `AuthenticationError('Invalid email or password')` both when
no user matched and when `bcrypt.compare` (the `verifyPw` parameter)
rejects the password. -/
def login (emailOk : String → Bool) (verifyPw : String → String → Bool)
    (secret : String) (now accessTtl refreshTtl : Nat)
    (users : List UserRow) (email password : String) :
    Except JsError (User × AuthTokens) :=
  match loginIssues emailOk email password with
  | [] =>
    let byEmailId : Int :=
      match UserRepo.findByEmail users email with
      | some u => u.id
      | none => 0
    match UserRepo.findByIdWithPassword users byEmailId with
    | none => .error (.appError (.authenticationError "Invalid email or password"))
    | some row =>
      if verifyPw password row.password_hash then
        .ok (userOfRow row,
             generateTokens secret now accessTtl refreshTtl row.id row.email)
      else
        .error (.appError (.authenticationError "Invalid email or password"))
  | issues => .error (.plainError ("Validation failed: " ++ String.intercalate ", " issues))

/-! ## HTTP route handlers
(`src/app/api/grocery-items/[id]/route.ts`, `src/app/api/grocery-items/route.ts`) -/

/-- JS `parseInt(s)` in base 10: skip leading whitespace, optional sign,
then a non-empty run of leading digits; `none` models NaN. Trailing
non-digit characters are ignored, as in JavaScript. -/
def jsParseIntDigits : List Char → Option Nat → Option Nat
  | [], acc => acc
  | c :: cs, acc =>
    if c.isDigit then
      jsParseIntDigits cs (some ((acc.getD 0) * 10 + (c.toNat - '0'.toNat)))
    else acc

/-- Leading-whitespace skip of `parseInt`. -/
def jsSkipWs : List Char → List Char
  | [] => []
  | c :: cs =>
    if c = ' ' || c = '\t' || c = '\n' || c = '\r' then jsSkipWs cs else c :: cs

def jsParseInt (s : String) : Option Int :=
  match jsSkipWs s.data with
  | '-' :: rest => (jsParseIntDigits rest none).map (fun n => -(n : Int))
  | '+' :: rest => (jsParseIntDigits rest none).map (fun n => (n : Int))
  | rest => (jsParseIntDigits rest none).map (fun n => (n : Int))

/-- The shared catch block of the `[id]` route handlers:
`NotFoundError`/`ValidationError`, then any `AppError`, map to their status
code and message; a plain `Error` falls through to a 500
`Internal server error`. -/
def routeErrorResponse (e : JsError) : HttpResponse :=
  match e with
  | .appError a => { status := a.statusCode, error := some a.message, item := none }
  | .plainError _ => { status := 500, error := some "Internal server error", item := none }

/-- Inner handler of `GET /api/grocery-items/[id]` (after `withAuth`):
parse the path id with `parseInt`, reject NaN with a 400
`Invalid item ID`, then call the service. -/
def idRouteGetHandler (idStr : String) (user : User) (db : ItemDb) :
    HttpResponse × ItemDb :=
  match jsParseInt idStr with
  | none => ({ status := 400, error := some "Invalid item ID", item := none }, db)
  | some itemId =>
    match getItem db itemId user.id with
    | .ok item => ({ status := 200, error := none, item := some item }, db)
    | .error e => (routeErrorResponse e, db)

/-- Inner handler of `PUT /api/grocery-items/[id]` (after `withAuth`). -/
def idRoutePutHandler (idStr : String) (body : UpdateGroceryItemRequest)
    (user : User) (db : ItemDb) : HttpResponse × ItemDb :=
  match jsParseInt idStr with
  | none => ({ status := 400, error := some "Invalid item ID", item := none }, db)
  | some itemId =>
    match updateItem itemId user.id body db with
    | (.ok item, db2) => ({ status := 200, error := none, item := some item }, db2)
    | (.error e, db2) => (routeErrorResponse e, db2)

/-- Inner handler of `DELETE /api/grocery-items/[id]` (after `withAuth`). -/
def idRouteDeleteHandler (idStr : String) (user : User) (db : ItemDb) :
    HttpResponse × ItemDb :=
  match jsParseInt idStr with
  | none => ({ status := 400, error := some "Invalid item ID", item := none }, db)
  | some itemId =>
    match deleteItem itemId user.id db with
    | (.ok _, db2) => ({ status := 200, error := none, item := none }, db2)
    | (.error e, db2) => (routeErrorResponse e, db2)

/-- Full `GET /api/grocery-items/[id]` pipeline: `withAuth` around the
inner handler. -/
def apiItemGet (decode : String → Option JwtToken) (users : List UserRow)
    (secret : String) (now : Nat) (req : ApiRequest) (idStr : String)
    (db : ItemDb) : HttpResponse × ItemDb :=
  withAuth decode users secret now (idRouteGetHandler idStr) req db

/-- Full `PUT /api/grocery-items/[id]` pipeline. -/
def apiItemPut (decode : String → Option JwtToken) (users : List UserRow)
    (secret : String) (now : Nat) (req : ApiRequest) (idStr : String)
    (body : UpdateGroceryItemRequest) (db : ItemDb) : HttpResponse × ItemDb :=
  withAuth decode users secret now (idRoutePutHandler idStr body) req db

/-- Full `DELETE /api/grocery-items/[id]` pipeline. -/
def apiItemDelete (decode : String → Option JwtToken) (users : List UserRow)
    (secret : String) (now : Nat) (req : ApiRequest) (idStr : String)
    (db : ItemDb) : HttpResponse × ItemDb :=
  withAuth decode users secret now (idRouteDeleteHandler idStr) req db

/-! ## Helper lemmas -/

theorem find?_eq_filter_head {α : Type} (l : List α) (p : α → Bool) :
    l.find? p = (l.filter p).head? := by
  induction l with
  | nil => rfl
  | cons a t ih =>
    by_cases h : p a
    · rw [List.find?_cons_of_pos _ h, List.filter_cons_of_pos h]
      rfl
    · rw [List.find?_cons_of_neg _ h, List.filter_cons_of_neg h, ih]

/-- A row owned by `A` never matches the `(id, B)` scope of another user. -/
theorem rowMatches_false_of_other_owner
    (db : ItemDb) (iid A B : Int)
    (howner : ∀ r ∈ db.rows, r.id = iid → r.user_id = A) (hAB : A ≠ B) :
    ∀ r ∈ db.rows, GroceryRepo.rowMatches iid B r = false := by
  intro r hr
  unfold GroceryRepo.rowMatches
  by_cases hidr : r.id = iid
  · have huser := howner r hr hidr
    simp [hidr, huser]
    intro h
    exact absurd h hAB
  · simp [hidr]

theorem validateId_pos {id : Int} (h : 0 < id) : validateId id = .ok () := by
  unfold validateId
  rw [if_pos h]

/-- Successful create validation forces a quantity of at least 1
(either the checked given value or the default). -/
theorem validateCreateItem_quantity {d : CreateGroceryItemRequest}
    {v : ValidatedCreateItem} (h : validateCreateItem d = .ok v) :
    1 ≤ v.quantity := by
  unfold validateCreateItem at h
  rcases hI : createItemIssues d with _ | ⟨i, is⟩
  · rw [hI] at h
    simp only [Except.ok.injEq] at h
    subst h
    show 1 ≤ d.quantity.getD 1
    unfold createItemIssues at hI
    rcases hq : d.quantity with _ | q
    · simp
    · rw [hq] at hI
      by_cases hlt : q < 1
      · simp [hlt] at hI
      · simp only [Option.getD]
        omega
  · rw [hI] at h
    simp at h

/-- Embeds `applyFieldSet` never touches the `store` column. -/
theorem applyFieldSet_store (r : GroceryItemRow) (f : GroceryRepo.FieldSet) :
    (GroceryRepo.applyFieldSet r f).store = r.store := by
  cases f <;> rfl

theorem foldl_applyFieldSet_store (fs : List GroceryRepo.FieldSet) :
    ∀ r : GroceryItemRow, (fs.foldl GroceryRepo.applyFieldSet r).store = r.store := by
  induction fs with
  | nil => intro r; rfl
  | cons f t ih =>
    intro r
    rw [List.foldl_cons, ih, applyFieldSet_store]

/-- The whole SET clause leaves the `store` column as it was. -/
theorem applySetClause_store (fs : List GroceryRepo.FieldSet) (now : Nat)
    (r : GroceryItemRow) : (GroceryRepo.applySetClause fs now r).store = r.store := by
  unfold GroceryRepo.applySetClause
  rw [foldl_applyFieldSet_store]

/-- Merge of one optional patch field into the stored optional value. -/
def mergeField {α : Type} (patchVal old : Option α) : Option α :=
  match patchVal with
  | some v => some v
  | none => old

/-- Applying the dynamically built SET clause of `update` is exactly the
field-by-field sparse merge: fields present in the patch take the patched
value, absent fields keep the stored value, `store`, `id`, `user_id` and
`created_at` are untouched, `updated_at` is refreshed. -/
theorem applySetClause_merge (p : UpdateGroceryItemRequest) (now : Nat)
    (r : GroceryItemRow) :
    GroceryRepo.applySetClause (GroceryRepo.buildUpdateFields p) now r =
      { id := r.id, user_id := r.user_id,
        name := p.name.getD r.name,
        quantity := p.quantity.getD r.quantity,
        store := r.store,
        category := mergeField p.category r.category,
        notes := mergeField p.notes r.notes,
        is_purchased := p.isPurchased.getD r.is_purchased,
        created_at := r.created_at,
        updated_at := now } := by
  obtain ⟨n, q, st, c, no, ip⟩ := p
  cases n <;> cases q <;> cases c <;> cases no <;> cases ip <;> rfl

/-! ## C1 — ownership isolation -/

/-- C1 (amended) — Ownership isolation: for users A ≠ B and an item id
whose rows all belong to A, `get(I.id, B)`, `update(I.id, B, p)` for any
valid patch that sets at least one repository-updatable field, and
`delete(I.id, B)` all fail with `NotFoundError` (never a forbidden kind,
which does not exist in the taxonomy), and the table is left unchanged. -/
theorem ownership_isolation
    (db : ItemDb) (iid A B : Int) (patch : UpdateGroceryItemRequest)
    (howner : ∀ r ∈ db.rows, r.id = iid → r.user_id = A)
    (hAB : A ≠ B) (hid : 0 < iid)
    (hvalid : validateUpdateItem patch = .ok patch)
    (hfield : GroceryRepo.buildUpdateFields patch ≠ []) :
    getItem db iid B = .error (.appError (.notFoundError "Grocery item not found"))
    ∧ updateItem iid B patch db
        = (.error (.appError (.notFoundError "Grocery item not found")), db)
    ∧ deleteItem iid B db
        = (.error (.appError (.notFoundError "Grocery item not found")), db) := by
  have hmatch := rowMatches_false_of_other_owner db iid A B howner hAB
  have hfilter : db.rows.filter (GroceryRepo.rowMatches iid B) = [] :=
    List.filter_eq_nil_iff.mpr (by intro r hr; simp [hmatch r hr])
  have hfind : db.rows.find? (GroceryRepo.rowMatches iid B) = none := by
    rw [find?_eq_filter_head, hfilter]; rfl
  refine ⟨?_, ?_, ?_⟩
  · unfold getItem GroceryRepo.findById
    rw [validateId_pos hid, hfind]
    rfl
  · unfold updateItem GroceryRepo.update
    rw [validateId_pos hid, hvalid]
    simp only [List.isEmpty_iff, hfilter]
    rw [if_neg hfield]
    rfl
  · unfold deleteItem GroceryRepo.del
    rw [validateId_pos hid]
    have hany : db.rows.any (GroceryRepo.rowMatches iid B) = false := by
      rw [List.any_eq_false]
      intro r hr
      simp [hmatch r hr]
    have hkeep : db.rows.filter (fun r => !(GroceryRepo.rowMatches iid B r)) = db.rows :=
      List.filter_eq_self.mpr (by intro r hr; simp [hmatch r hr])
    rw [hany, hkeep]
    rfl

/-- Concrete stored row: user 1 owns item 1 (a "Milk" item whose `store`
column happens to be populated). -/
def wRow1 : GroceryItemRow :=
  { id := 1, user_id := 1, name := "Milk", quantity := 2, store := some "Old",
    category := some "Dairy", notes := none, is_purchased := false,
    created_at := 5, updated_at := 5 }

/-- Concrete table holding exactly `wRow1`. -/
def wDb1 : ItemDb := { rows := [wRow1], nextId := 2, now := 9 }

/-- Concrete patch setting only `quantity` to 3. -/
def wPatchQty : UpdateGroceryItemRequest :=
  { name := none, quantity := some 3, store := none, category := none,
    notes := none, isPurchased := none }

/-- Concrete patch setting only `store`. -/
def wPatchStore : UpdateGroceryItemRequest :=
  { name := none, quantity := none, store := some "Walmart", category := none,
    notes := none, isPurchased := none }

/-- Witness for C1 at user A = 1, B = 2, item 1, patch `{quantity: 3}`. -/
theorem ownership_isolation_witness :
    getItem wDb1 1 2 = .error (.appError (.notFoundError "Grocery item not found"))
    ∧ updateItem 1 2 wPatchQty wDb1
        = (.error (.appError (.notFoundError "Grocery item not found")), wDb1)
    ∧ deleteItem 1 2 wDb1
        = (.error (.appError (.notFoundError "Grocery item not found")), wDb1) :=
  ownership_isolation wDb1 1 1 2 wPatchQty (by decide) (by decide) (by decide)
    rfl (by decide)

/-- Counterexample for C1 as frozen: the patch `{store: "Walmart"}` is
non-empty and passes `updateGroceryItemSchema`, yet user 2's update of
user 1's item 1 fails with `DatabaseError('No fields to update')` — a 500,
not the claimed `NotFoundError`. -/
theorem ownership_isolation_cex :
    updateHasField wPatchStore = true
    ∧ validateUpdateItem wPatchStore = .ok wPatchStore
    ∧ updateItem 1 2 wPatchStore wDb1
        = (.error (.appError (.databaseError "No fields to update")), wDb1)
    ∧ JsError.isNotFound (.appError (.databaseError "No fields to update")) = false :=
  ⟨rfl, rfl, rfl, rfl⟩

/-! ## C5 — partial-update merge -/

/-- C5 (amended) — Partial-update merge: for an existing `(id, owner)` row
and any valid patch that sets at least one repository-updatable field, the
update returns the sparse merge — patched fields take the patch value,
absent fields keep their stored value — and rewrites the table the same
way, preserving `store` (never in the SET clause), `id`, `user_id` and
`created_at`, and refreshing `updated_at`. -/
theorem sparse_patch_merge
    (db : ItemDb) (iid owner : Int) (p : UpdateGroceryItemRequest)
    (row : GroceryItemRow)
    (hid : 0 < iid)
    (hvalid : validateUpdateItem p = .ok p)
    (hfield : GroceryRepo.buildUpdateFields p ≠ [])
    (hfind : db.rows.find? (GroceryRepo.rowMatches iid owner) = some row) :
    updateItem iid owner p db =
      (.ok { id := row.id, name := p.name.getD row.name,
             quantity := p.quantity.getD row.quantity,
             category := mergeField p.category row.category,
             notes := mergeField p.notes row.notes,
             isPurchased := p.isPurchased.getD row.is_purchased,
             createdAt := row.created_at, updatedAt := db.now },
       { db with rows := (db.rows.map (fun r =>
           if GroceryRepo.rowMatches iid owner r then
             { id := r.id, user_id := r.user_id,
               name := p.name.getD r.name,
               quantity := p.quantity.getD r.quantity,
               store := r.store,
               category := mergeField p.category r.category,
               notes := mergeField p.notes r.notes,
               is_purchased := p.isPurchased.getD r.is_purchased,
               created_at := r.created_at,
               updated_at := db.now }
           else r)) }) := by
  have hhead : (db.rows.filter (GroceryRepo.rowMatches iid owner)).head? = some row := by
    rw [← find?_eq_filter_head]
    exact hfind
  unfold updateItem GroceryRepo.update
  rw [validateId_pos hid, hvalid]
  simp only [hhead]
  have hempty : (GroceryRepo.buildUpdateFields p).isEmpty = false := by
    rcases hb : GroceryRepo.buildUpdateFields p with _ | ⟨f, fs⟩
    · exact absurd hb hfield
    · rfl
  rw [hempty]
  simp only [Bool.false_eq_true, if_false, Prod.mk.injEq]
  constructor
  · rw [applySetClause_merge]
    rfl
  · congr 1
    apply List.map_congr_left
    intro r _
    by_cases hm : GroceryRepo.rowMatches iid owner r
    · rw [if_pos hm, if_pos hm, applySetClause_merge]
    · rw [if_neg hm, if_neg hm]

/-- Witness for C5 (amended) at the spec's own example: item
`{name:"Milk", quantity:2}`, patch `{quantity:3}` yields
`{name:"Milk", quantity:3}` with all untouched columns surviving. -/
theorem sparse_patch_merge_witness :
    updateItem 1 1 wPatchQty wDb1 =
      (.ok { id := 1, name := "Milk", quantity := 3, category := some "Dairy",
             notes := none, isPurchased := false, createdAt := 5, updatedAt := 9 },
       { rows := [{ wRow1 with quantity := 3, updated_at := 9 }],
         nextId := 2, now := 9 }) := by
  have h := sparse_patch_merge wDb1 1 1 wPatchQty wRow1 (by decide) rfl
    (by decide) rfl
  exact h

/-- Concrete patch setting `store` and `quantity` together. -/
def wPatchStoreQty : UpdateGroceryItemRequest :=
  { name := none, quantity := some 3, store := some "New", category := none,
    notes := none, isPurchased := none }

/-- Counterexample for C5 as frozen: the valid patch
`{store:"New", quantity:3}` has `store` present, yet after the update the
row's `store` column still holds `"Old"` — a field present in the patch was
not modified (and a store-only patch fails instead of updating, see the
C10 theorem). -/
theorem sparse_patch_merge_cex :
    validateUpdateItem wPatchStoreQty = .ok wPatchStoreQty
    ∧ updateItem 1 1 wPatchStoreQty wDb1
        = (.ok { id := 1, name := "Milk", quantity := 3, category := some "Dairy",
                 notes := none, isPurchased := false, createdAt := 5, updatedAt := 9 },
           { rows := [{ wRow1 with quantity := 3, updated_at := 9 }],
             nextId := 2, now := 9 })
    ∧ ((updateItem 1 1 wPatchStoreQty wDb1).2.rows.map (fun r => r.store)) = [some "Old"]
    ∧ wPatchStoreQty.store = some "New"
    ∧ (some "Old" : Option String) ≠ some "New" :=
  ⟨rfl, rfl, rfl, rfl, by decide⟩

/-! ## C10 — the repository never writes `store` -/

/-- C10 — No repository operation writes the `store` column: a validated
create appends exactly one row and that row's `store` is NULL regardless of
the input's `store`; `update` leaves the `store` column of every row
unchanged for every patch; and a patch containing only `store` passes
service validation yet makes the repository throw
`DatabaseError('No fields to update')`, leaving the table untouched. -/
theorem store_never_written :
    (∀ (db : ItemDb) (owner : Int) (input : CreateGroceryItemRequest)
       (v : ValidatedCreateItem), validateCreateItem input = .ok v →
       ((createItem owner input db).2.rows.map (fun r => r.store))
         = (db.rows.map (fun r => r.store)) ++ [none])
    ∧ (∀ (db : ItemDb) (iid owner : Int) (u : UpdateGroceryItemRequest),
        (((GroceryRepo.update db iid owner u).2).rows.map (fun r => r.store))
          = db.rows.map (fun r => r.store))
    ∧ (∀ (db : ItemDb) (iid owner : Int), 0 < iid →
        validateUpdateItem wPatchStore = .ok wPatchStore
        ∧ updateItem iid owner wPatchStore db
            = (.error (.appError (.databaseError "No fields to update")), db)) := by
  refine ⟨?_, ?_, ?_⟩
  · intro db owner input v hval
    have hq := validateCreateItem_quantity hval
    have hq2 : ¬ v.quantity ≤ 0 := by omega
    unfold createItem GroceryRepo.create
    rw [hval]
    simp [hq2]
  · intro db iid owner u
    unfold GroceryRepo.update
    by_cases hempty : (GroceryRepo.buildUpdateFields u).isEmpty
    · rw [if_pos hempty]
    · rw [if_neg hempty]
      rcases hh : (db.rows.filter (GroceryRepo.rowMatches iid owner)).head? with _ | first
      · rfl
      · simp only [List.map_map]
        apply List.map_congr_left
        intro r _
        by_cases hm : GroceryRepo.rowMatches iid owner r
        · simp only [Function.comp, if_pos hm, applySetClause_store]
        · simp only [Function.comp, if_neg hm]
  · intro db iid owner hid
    refine ⟨rfl, ?_⟩
    unfold updateItem
    rw [validateId_pos hid]
    rfl

/-- Concrete create input whose optional `store` field is present. -/
def wCreateInput : CreateGroceryItemRequest :=
  { name := "Milk", quantity := some 2, store := some "Walmart",
    category := some "Dairy", notes := some "2% milk" }

/-- The validated form of `wCreateInput`. -/
def wCreateValidated : ValidatedCreateItem :=
  { name := "Milk", quantity := 2, store := some "Walmart",
    category := some "Dairy", notes := some "2% milk" }

/-- Concrete empty table. -/
def wDb0 : ItemDb := { rows := [], nextId := 1, now := 7 }

/-- Witness for C10: the three conjuncts at concrete inputs. -/
theorem store_never_written_witness :
    ((createItem 1 wCreateInput wDb0).2.rows.map (fun r => r.store))
      = (wDb0.rows.map (fun r => r.store)) ++ [none]
    ∧ ((GroceryRepo.update wDb1 1 1 wPatchQty).2.rows.map (fun r => r.store))
      = wDb1.rows.map (fun r => r.store)
    ∧ (validateUpdateItem wPatchStore = .ok wPatchStore
       ∧ updateItem 1 1 wPatchStore wDb1
           = (.error (.appError (.databaseError "No fields to update")), wDb1)) :=
  ⟨store_never_written.1 wDb0 1 wCreateInput wCreateValidated rfl,
   store_never_written.2.1 wDb1 1 1 wPatchQty,
   store_never_written.2.2 wDb1 1 1 (by decide)⟩

/-! ## C2 — filter conjunction -/

theorem insertByCreatedDesc_perm (r : GroceryItemRow) (l : List GroceryItemRow) :
    (GroceryRepo.insertByCreatedDesc r l).Perm (r :: l) := by
  induction l with
  | nil => exact List.Perm.refl _
  | cons x xs ih =>
    unfold GroceryRepo.insertByCreatedDesc
    by_cases h : x.created_at < r.created_at
    · rw [if_pos h]
    · rw [if_neg h]
      exact (ih.cons x).trans (List.Perm.swap r x xs)

/-- The `ORDER BY created_at DESC` model is a permutation: sorting loses
and duplicates nothing. -/
theorem sortByCreatedDesc_perm (l : List GroceryItemRow) :
    (GroceryRepo.sortByCreatedDesc l).Perm l := by
  induction l with
  | nil => exact List.Perm.refl _
  | cons x xs ih =>
    unfold GroceryRepo.sortByCreatedDesc
    exact (insertByCreatedDesc_perm x _).trans (ih.cons x)

/-- The three example rows of the claim, all owned by user 1:
stores A, A, B and categories X, Y, X, created at times 3, 2, 1. -/
def wR1 : GroceryItemRow :=
  { id := 1, user_id := 1, name := "ItemOne", quantity := 1, store := some "A",
    category := some "X", notes := none, is_purchased := false,
    created_at := 3, updated_at := 3 }

def wR2 : GroceryItemRow :=
  { id := 2, user_id := 1, name := "ItemTwo", quantity := 1, store := some "A",
    category := some "Y", notes := none, is_purchased := false,
    created_at := 2, updated_at := 2 }

def wR3 : GroceryItemRow :=
  { id := 3, user_id := 1, name := "ItemThree", quantity := 1, store := some "B",
    category := some "X", notes := none, is_purchased := false,
    created_at := 1, updated_at := 1 }

def db3 : ItemDb := { rows := [wR1, wR2, wR3], nextId := 4, now := 10 }

/-- The claim's filter `{store:"A", category:"X"}`. -/
def filtersAX : GroceryItemFilters :=
  { store := some "A", category := some "X", isPurchased := none, search := none }

/-- Counterexample for C2 as frozen: on the claim's own three items,
`list(owner, {store:"A", category:"X"})` returns the first AND the third
item (the third has store "B"): the `store` filter is never applied, so the
result is not exactly the first item. -/
theorem filter_conjunction_cex :
    filtersAX.store = some "A"
    ∧ getUserItems db3 1 (some filtersAX)
        = .ok [toGroceryItemResponse (mapDbRowToGroceryItem wR1),
               toGroceryItemResponse (mapDbRowToGroceryItem wR3)]
    ∧ wR3.store = some "B"
    ∧ getUserItems db3 1 (some filtersAX)
        ≠ .ok [toGroceryItemResponse (mapDbRowToGroceryItem wR1)] := by
  refine ⟨rfl, rfl, rfl, ?_⟩
  decide

/-- C2 (amended) — Filter conjunction without `store`: a `store` filter
value within bounds is accepted by validation but never applied (the result
is identical with the `store` filter removed); the other filters are
AND-combined — the listing is a permutation of exactly the owner's rows
passing every present filter clause — and on the claim's three example
items the filter `{store:"A", category:"X"}` returns the first and third
items, newest first. -/
theorem filter_conjunction_amended :
    (∀ (db : ItemDb) (uid : Int) (f : GroceryItemFilters) (s : String),
       s.length ≤ 255 →
       getUserItems db uid (some { f with store := some s })
         = getUserItems db uid (some { f with store := none }))
    ∧ (∀ (db : ItemDb) (uid : Int) (fopt : Option GroceryItemFilters),
        (GroceryRepo.findByUserId db uid fopt).Perm
          ((db.rows.filter
              (fun r => r.user_id == uid && GroceryRepo.rowPassesFilters fopt r)).map
            mapDbRowToGroceryItem))
    ∧ getUserItems db3 1 (some filtersAX)
        = .ok [toGroceryItemResponse (mapDbRowToGroceryItem wR1),
               toGroceryItemResponse (mapDbRowToGroceryItem wR3)] := by
  refine ⟨?_, ?_, rfl⟩
  · intro db uid f s hs
    have h2 : ¬ 255 < s.length := by omega
    have hiss : filtersIssues { f with store := some s }
        = filtersIssues { f with store := none } := by
      simp [filtersIssues, h2]
    rcases hI : filtersIssues { f with store := none } with _ | ⟨i, is⟩
    · have hv1 : validateFilters { f with store := some s }
          = .ok { f with store := some s } := by
        unfold validateFilters
        rw [hiss, hI]
      have hv2 : validateFilters { f with store := none }
          = .ok { f with store := none } := by
        unfold validateFilters
        rw [hI]
      simp only [getUserItems, hv1, hv2]
      rfl
    · have hv1 : validateFilters { f with store := some s }
          = .error (.plainError ("Validation failed: " ++ String.intercalate ", " (i :: is))) := by
        unfold validateFilters
        rw [hiss, hI]
      have hv2 : validateFilters { f with store := none }
          = .error (.plainError ("Validation failed: " ++ String.intercalate ", " (i :: is))) := by
        unfold validateFilters
        rw [hI]
      simp only [getUserItems, hv1, hv2]
  · intro db uid fopt
    unfold GroceryRepo.findByUserId
    exact (sortByCreatedDesc_perm _).map mapDbRowToGroceryItem

/-- Witness for C2 (amended): the store-irrelevance conjunct at the
concrete example filter and table. -/
theorem filter_conjunction_witness :
    getUserItems db3 1 (some { filtersAX with store := some "A" })
      = getUserItems db3 1 (some { filtersAX with store := none }) :=
  filter_conjunction_amended.1 db3 1 filtersAX "A" (by decide)

/-! ## C3 — create/get round trip -/

theorem find?_append_left_none {α : Type} (l₁ l₂ : List α) (p : α → Bool)
    (h : ∀ a ∈ l₁, p a = false) : (l₁ ++ l₂).find? p = l₂.find? p := by
  rw [find?_eq_filter_head, List.filter_append,
      List.filter_eq_nil_iff.mpr (by intro a ha; simp [h a ha]),
      List.nil_append, ← find?_eq_filter_head]

/-- The row `GroceryRepo.create` inserts for a validated input (its `store`
column is NULL: the INSERT column list has no `store`). -/
def insertedRow (db : ItemDb) (owner : Int) (v : ValidatedCreateItem) : GroceryItemRow :=
  { id := db.nextId, user_id := owner, name := v.name, quantity := v.quantity,
    store := none, category := jsOrNull v.category, notes := jsOrNull v.notes,
    is_purchased := false, created_at := db.now, updated_at := db.now }

/-- C3 — Round trip: for any valid create input (the optional `store` field
may be present), `create(owner, input)` succeeds and `get(createdId,
owner)` on the resulting table returns exactly the view `create` returned
— equal on every field of the view — and the view construction strips the
owner id (it is insensitive to the item's `userId`). -/
theorem create_get_roundtrip
    (db : ItemDb) (owner : Int) (input : CreateGroceryItemRequest)
    (v : ValidatedCreateItem)
    (hval : validateCreateItem input = .ok v)
    (hnext : 0 < db.nextId)
    (hfresh : ∀ r ∈ db.rows, r.id ≠ db.nextId) :
    (createItem owner input db).1
      = .ok (toGroceryItemResponse (mapDbRowToGroceryItem (insertedRow db owner v)))
    ∧ getItem (createItem owner input db).2
        (toGroceryItemResponse (mapDbRowToGroceryItem (insertedRow db owner v))).id owner
      = .ok (toGroceryItemResponse (mapDbRowToGroceryItem (insertedRow db owner v)))
    ∧ (∀ (item : GroceryItem) (uid : Int),
        toGroceryItemResponse { item with userId := uid } = toGroceryItemResponse item) := by
  have hq := validateCreateItem_quantity hval
  have hq2 : ¬ v.quantity ≤ 0 := by omega
  have hcreate : createItem owner input db
      = (.ok (toGroceryItemResponse (mapDbRowToGroceryItem (insertedRow db owner v))),
         { db with rows := db.rows ++ [insertedRow db owner v],
                   nextId := db.nextId + 1 }) := by
    unfold createItem GroceryRepo.create insertedRow
    rw [hval]
    simp [hq2]
  refine ⟨by rw [hcreate], ?_, by intro item uid; rfl⟩
  rw [hcreate]
  have hid : (toGroceryItemResponse (mapDbRowToGroceryItem (insertedRow db owner v))).id
      = db.nextId := rfl
  unfold getItem
  rw [hid, validateId_pos hnext]
  unfold GroceryRepo.findById
  rw [find?_append_left_none _ _ _
        (by intro r hr
            unfold GroceryRepo.rowMatches
            simp [hfresh r hr])]
  have hmatch : GroceryRepo.rowMatches db.nextId owner (insertedRow db owner v) = true := by
    unfold GroceryRepo.rowMatches insertedRow
    simp
  rw [List.find?_cons_of_pos _ hmatch]
  rfl

/-- A concrete item view used to instantiate the owner-id-stripping
conjunct of the round-trip theorem. -/
def wItem : GroceryItem :=
  { id := 1, userId := 1, name := "Milk", quantity := 2, category := some "Dairy",
    notes := none, isPurchased := false, createdAt := 5, updatedAt := 5 }

/-- Witness for C3 at a concrete input whose `store` field is present. -/
theorem create_get_roundtrip_witness :
    (createItem 1 wCreateInput wDb0).1
      = .ok (toGroceryItemResponse (mapDbRowToGroceryItem (insertedRow wDb0 1 wCreateValidated)))
    ∧ getItem (createItem 1 wCreateInput wDb0).2
        (toGroceryItemResponse (mapDbRowToGroceryItem (insertedRow wDb0 1 wCreateValidated))).id 1
      = .ok (toGroceryItemResponse (mapDbRowToGroceryItem (insertedRow wDb0 1 wCreateValidated)))
    ∧ toGroceryItemResponse { wItem with userId := 42 } = toGroceryItemResponse wItem :=
  ⟨(create_get_roundtrip wDb0 1 wCreateInput wCreateValidated rfl (by decide) (by decide)).1,
   (create_get_roundtrip wDb0 1 wCreateInput wCreateValidated rfl (by decide) (by decide)).2.1,
   (create_get_roundtrip wDb0 1 wCreateInput wCreateValidated rfl (by decide) (by decide)).2.2 wItem 42⟩

/-! ## C4 — empty patch -/

/-- The empty patch `{}`. -/
def wEmptyPatch : UpdateGroceryItemRequest :=
  { name := none, quantity := none, store := none, category := none,
    notes := none, isPurchased := none }

/-- Concrete authenticated user (user 1). -/
def wUser : User := { id := 1, email := "known@x.com", createdAt := 0, updatedAt := 0 }

/-- C4 (code behaviour at the failing input): `update(1, 1, {})` is
rejected before any store access (the table comes back untouched) — but
with a plain `Error('Validation failed: At least one field must be
provided for update')` thrown by `validateRequestBody`, not a
`ValidationError`; the PUT handler's catch therefore maps it to a 500
`Internal server error` instead of the 400 a `ValidationError` carries. -/
theorem empty_patch_maps_to_500 :
    updateHasField wEmptyPatch = false
    ∧ updateItem 1 1 wEmptyPatch wDb1
        = (.error (.plainError
            "Validation failed: At least one field must be provided for update"), wDb1)
    ∧ (idRoutePutHandler "1" wEmptyPatch wUser wDb1).1
        = { status := 500, error := some "Internal server error", item := none }
    ∧ (idRoutePutHandler "1" wEmptyPatch wUser wDb1).2 = wDb1
    ∧ AppError.statusCode
        (.validationError "At least one field must be provided for update") = 400 :=
  ⟨rfl, rfl, by decide, by decide, rfl⟩

/-! ## C6 — login oracle-resistance -/

/-- C6 — Login oracle-resistance: under the same validated inputs, a login
with an e-mail matching no stored user and a login with a known e-mail but
failing password verification produce the very same error value — kind
`AuthenticationError` and message `"Invalid email or password"` — so the
two failure causes are observationally indistinguishable. -/
theorem string_eq_empty_of_length {s : String} (h : s.length = 0) : s = "" := by
  cases s with
  | mk data =>
    cases data with
    | nil => rfl
    | cons c cs => simp [String.length] at h

theorem login_oracle_resistance
    (emailOk : String → Bool) (verifyPw : String → String → Bool)
    (secret : String) (now accessTtl refreshTtl : Nat) (users : List UserRow)
    (unknownEmail pw1 knownEmail pw2 : String) (u : User) (row : UserRow)
    (hOk1 : emailOk unknownEmail = true) (hpw1 : pw1 ≠ "")
    (hOk2 : emailOk knownEmail = true) (hpw2 : pw2 ≠ "")
    (hUnknown : UserRepo.findByEmail users unknownEmail = none)
    (hNoZero : ∀ r ∈ users, r.id ≠ 0)
    (hKnown : UserRepo.findByEmail users knownEmail = some u)
    (hRow : UserRepo.findByIdWithPassword users u.id = some row)
    (hBad : verifyPw pw2 row.password_hash = false) :
    login emailOk verifyPw secret now accessTtl refreshTtl users unknownEmail pw1
      = .error (.appError (.authenticationError "Invalid email or password"))
    ∧ login emailOk verifyPw secret now accessTtl refreshTtl users knownEmail pw2
      = .error (.appError (.authenticationError "Invalid email or password")) := by
  have hlen1 : ¬ (pw1.length < 1) := by
    intro hl
    exact hpw1 (string_eq_empty_of_length (by omega))
  have hlen2 : ¬ (pw2.length < 1) := by
    intro hl
    exact hpw2 (string_eq_empty_of_length (by omega))
  have hv1 : loginIssues emailOk unknownEmail pw1 = [] := by
    unfold loginIssues
    simp [hOk1, hlen1]
  have hv2 : loginIssues emailOk knownEmail pw2 = [] := by
    unfold loginIssues
    simp [hOk2, hlen2]
  have hzero : UserRepo.findByIdWithPassword users 0 = none := by
    unfold UserRepo.findByIdWithPassword
    rw [List.find?_eq_none]
    intro r hr
    simp [hNoZero r hr]
  constructor
  · unfold login
    rw [hv1]
    simp [hUnknown, hzero]
  · unfold login
    rw [hv2]
    simp [hKnown, hRow, hBad]

/-- Concrete stored user. -/
def wUserRow : UserRow :=
  { id := 1, email := "known@x.com", password_hash := "HASH",
    created_at := 0, updated_at := 0 }

/-- Concrete model of the Zod e-mail format check, accepting the two
e-mails of the witness. -/
def wEmailOk : String → Bool :=
  fun s => s == "known@x.com" || s == "ghost@x.com"

/-- Concrete model of `bcrypt.compare`: only `"secret"` matches `"HASH"`. -/
def wVerifyPw : String → String → Bool :=
  fun p h => p == "secret" && h == "HASH"

/-- Witness for C6: unknown e-mail vs known e-mail with wrong password. -/
theorem login_oracle_resistance_witness :
    login wEmailOk wVerifyPw "sec" 0 10 20 [wUserRow] "ghost@x.com" "whatever"
      = .error (.appError (.authenticationError "Invalid email or password"))
    ∧ login wEmailOk wVerifyPw "sec" 0 10 20 [wUserRow] "known@x.com" "wrong"
      = .error (.appError (.authenticationError "Invalid email or password")) :=
  login_oracle_resistance wEmailOk wVerifyPw "sec" 0 10 20 [wUserRow]
    "ghost@x.com" "whatever" "known@x.com" "wrong" (userOfRow wUserRow) wUserRow
    (by decide) (by decide) (by decide) (by decide) (by decide) (by decide)
    (by decide) (by decide) (by decide)

/-! ## C7 — auth gateway completeness -/

theorem wrapAuthError_is_auth (e : AppError) :
    ∃ m, wrapAuthError e = .authenticationError m := by
  cases e <;> exact ⟨_, rfl⟩

/-- Every failure of `authenticate` is an `AuthenticationError`. -/
theorem authenticate_error_is_auth
    (decode : String → Option JwtToken) (users : List UserRow)
    (secret : String) (now : Nat) (req : ApiRequest) (e : AppError)
    (h : authenticate decode users secret now req = .error e) :
    ∃ m, e = .authenticationError m := by
  unfold authenticate at h
  cases hr : authenticateRaw decode users secret now req with
  | ok u => rw [hr] at h; exact absurd h (by simp)
  | error e2 =>
    rw [hr] at h
    injection h with h2
    obtain ⟨m, hm⟩ := wrapAuthError_is_auth e2
    exact ⟨m, by rw [← h2, hm]⟩

/-- A user resolved by `findById` carries the looked-up id and resolves to
itself again. -/
theorem findById_self (users : List UserRow) (uid : Int) (u : User)
    (h : UserRepo.findById users uid = some u) :
    u.id = uid ∧ UserRepo.findById users u.id = some u := by
  unfold UserRepo.findById at h ⊢
  cases hf : users.find? (fun r => r.id == uid) with
  | none => rw [hf] at h; simp at h
  | some r =>
    rw [hf] at h
    simp only [Option.map_some'] at h
    injection h with h2
    have hp := List.find?_some hf
    have hid : r.id = uid := by simpa using hp
    subst h2
    refine ⟨hid, ?_⟩
    have : (userOfRow r).id = r.id := rfl
    rw [this, hid, hf]
    rfl

/-- A successful `authenticateRaw` resolved its user in the store. -/
theorem authenticateRaw_ok_resolved
    (decode : String → Option JwtToken) (users : List UserRow)
    (secret : String) (now : Nat) (req : ApiRequest) (u : User)
    (h : authenticateRaw decode users secret now req = .ok u) :
    UserRepo.findById users u.id = some u := by
  unfold authenticateRaw at h
  cases he : extractTokenFromHeader req.authHeader with
  | error e => rw [he] at h; simp at h
  | ok tok =>
    rw [he] at h
    simp only [] at h
    cases hv : verifyToken decode secret now tok with
    | error e => rw [hv] at h; simp at h
    | ok payload =>
      rw [hv] at h
      simp only [] at h
      unfold validateUser at h
      cases hf : UserRepo.findById users payload.userId with
      | none => rw [hf] at h; simp at h
      | some u2 =>
        rw [hf] at h
        simp only [Except.ok.injEq] at h
        subst h
        exact (findById_self users payload.userId u2 hf).2

/-- C7 — Auth gateway completeness: when `authenticate` fails, `withAuth`
returns that failure as a 401 without invoking the wrapped handler (the
result is the same for every handler); when it succeeds, the wrapped
handler runs with the resolved user, and that user is live in the
credential store; and a structurally valid, correctly signed, unexpired
token whose subject no longer exists makes `authenticate` itself fail with
`AuthenticationError('User not found')`. -/
theorem auth_gateway_complete
    (decode : String → Option JwtToken) (users : List UserRow)
    (secret : String) (now : Nat) (req : ApiRequest) (db : ItemDb) :
    (∀ e, authenticate decode users secret now req = .error e →
       ∀ handler : User → ItemDb → HttpResponse × ItemDb,
         withAuth decode users secret now handler req db = (authFailResponse e, db)
         ∧ (withAuth decode users secret now handler req db).1.status = 401)
    ∧ (∀ u, authenticate decode users secret now req = .ok u →
        (∀ handler : User → ItemDb → HttpResponse × ItemDb,
           withAuth decode users secret now handler req db = handler u db)
        ∧ UserRepo.findById users u.id = some u)
    ∧ (∀ tokStr t, extractTokenFromHeader req.authHeader = .ok tokStr →
        decode tokStr = some t → t.signedWith = secret → ¬ t.exp < now →
        UserRepo.findById users t.userId = none →
        authenticate decode users secret now req
          = .error (.authenticationError "User not found")) := by
  refine ⟨?_, ?_, ?_⟩
  · intro e he handler
    have hw : withAuth decode users secret now handler req db
        = (authFailResponse e, db) := by
      unfold withAuth
      rw [he]
    refine ⟨hw, ?_⟩
    rw [hw]
    obtain ⟨m, hm⟩ := authenticate_error_is_auth decode users secret now req e he
    subst hm
    rfl
  · intro u hu
    constructor
    · intro handler
      unfold withAuth
      rw [hu]
    · unfold authenticate at hu
      cases hr : authenticateRaw decode users secret now req with
      | error e2 => rw [hr] at hu; simp at hu
      | ok u2 =>
        rw [hr] at hu
        injection hu with h2
        subst h2
        exact authenticateRaw_ok_resolved decode users secret now req u2 hr
  · intro tokStr t hext hdec hsig hexp hnone
    have hjv : jwtVerify decode secret now tokStr
        = .ok { userId := t.userId, email := t.email } := by
      unfold jwtVerify
      rw [hdec]
      simp [hsig, hexp]
    have hv : verifyToken decode secret now tokStr
        = .ok { userId := t.userId, email := t.email } := by
      unfold verifyToken
      rw [hjv]
    have hraw : authenticateRaw decode users secret now req
        = .error (.authenticationError "User not found") := by
      unfold authenticateRaw
      rw [hext]
      simp only []
      rw [hv]
      simp only []
      unfold validateUser
      rw [hnone]
    unfold authenticate
    rw [hraw]
    rfl

/-- Concrete token: subject user 1, signed with `"sec"`, expiring at 100. -/
def wToken : JwtToken :=
  { userId := 1, email := "known@x.com", signedWith := "sec", exp := 100 }

/-- Concrete model of token decoding: only the string `"tok"` is
well-formed and decodes to `wToken`. -/
def wDecode : String → Option JwtToken :=
  fun s => if s == "tok" then some wToken else none

/-- Concrete request carrying `Authorization: Bearer tok`. -/
def wReq : ApiRequest := { authHeader := some "Bearer tok" }

/-- A concrete wrapped handler for the witness. -/
def wHandler : User → ItemDb → HttpResponse × ItemDb :=
  fun _ db => ({ status := 200, error := none, item := none }, db)

/-- Witness for C7: a live subject reaches the handler with the resolved
user; a deleted subject (empty user table, same valid token) fails with
`AuthenticationError('User not found')`; a wrong-secret request is answered
401. -/
theorem auth_gateway_complete_witness :
    (withAuth wDecode [wUserRow] "sec" 50 wHandler wReq wDb1 = wHandler wUser wDb1
     ∧ UserRepo.findById [wUserRow] wUser.id = some wUser)
    ∧ authenticate wDecode [] "sec" 50 wReq
        = .error (.authenticationError "User not found")
    ∧ (withAuth wDecode [wUserRow] "bad" 50 wHandler wReq wDb1).1.status = 401 := by
  refine ⟨⟨?_, ?_⟩, ?_, ?_⟩
  · exact ((auth_gateway_complete wDecode [wUserRow] "sec" 50 wReq wDb1).2.1 wUser
      (by decide)).1 wHandler
  · exact ((auth_gateway_complete wDecode [wUserRow] "sec" 50 wReq wDb1).2.1 wUser
      (by decide)).2
  · exact (auth_gateway_complete wDecode [] "sec" 50 wReq wDb1).2.2 "tok" wToken
      (by decide) (by decide) (by decide) (by decide) (by decide)
  · exact ((auth_gateway_complete wDecode [wUserRow] "bad" 50 wReq wDb1).1
      (.authenticationError "Invalid token") (by decide) wHandler).2

/-! ## C8 — token verification outcomes -/

/-- C8 — Token verification outcomes: for a well-formed token whose
signature verifies, `verify` fails with the `TokenExpired` kind exactly
when the current time is past `expiresAt`; a wrongly signed or malformed
token fails with the `TokenInvalid` kind (`JsonWebTokenError`), which
takes precedence because the signature is checked before expiry; with no
failing condition, verification succeeds — there is no other failure
state — and the two causes are distinct internal kinds which
`verifyToken` maps to distinct `AuthenticationError` messages. -/
theorem token_verification_outcomes
    (decode : String → Option JwtToken) (secret : String) (now : Nat)
    (tok : String) :
    (∀ t, decode tok = some t → t.signedWith = secret →
       (jwtVerify decode secret now tok = .error .tokenExpiredError ↔ t.exp < now))
    ∧ (∀ t, decode tok = some t → t.signedWith ≠ secret →
        jwtVerify decode secret now tok = .error .jsonWebTokenError)
    ∧ (decode tok = none → jwtVerify decode secret now tok = .error .jsonWebTokenError)
    ∧ (∀ t, decode tok = some t → t.signedWith = secret → ¬ t.exp < now →
        jwtVerify decode secret now tok = .ok { userId := t.userId, email := t.email })
    ∧ JwtError.tokenExpiredError ≠ JwtError.jsonWebTokenError
    ∧ (verifyToken decode secret now tok
         = .error (.authenticationError "Token has expired")
       ↔ jwtVerify decode secret now tok = .error .tokenExpiredError)
    ∧ (verifyToken decode secret now tok
         = .error (.authenticationError "Invalid token")
       ↔ jwtVerify decode secret now tok = .error .jsonWebTokenError)
    ∧ ("Token has expired" : String) ≠ "Invalid token" := by
  refine ⟨?_, ?_, ?_, ?_, by decide, ?_, ?_, by decide⟩
  · intro t hdec hsig
    unfold jwtVerify
    rw [hdec]
    simp only [hsig]
    by_cases hexp : t.exp < now
    · simp [hexp]
    · simp [hexp]
  · intro t hdec hsig
    unfold jwtVerify
    rw [hdec]
    simp [hsig]
  · intro hdec
    unfold jwtVerify
    rw [hdec]
  · intro t hdec hsig hexp
    unfold jwtVerify
    rw [hdec]
    simp [hsig, hexp]
  · unfold verifyToken
    cases hj : jwtVerify decode secret now tok with
    | ok p => simp
    | error e => cases e <;> simp
  · unfold verifyToken
    cases hj : jwtVerify decode secret now tok with
    | ok p => simp
    | error e => cases e <;> simp

/-- Witness for C8: an expired but correctly signed token, a wrongly
signed token, a malformed token, and a fresh valid token. -/
theorem token_verification_outcomes_witness :
    jwtVerify wDecode "sec" 200 "tok" = .error .tokenExpiredError
    ∧ jwtVerify wDecode "other" 50 "tok" = .error .jsonWebTokenError
    ∧ jwtVerify wDecode "sec" 50 "garbage" = .error .jsonWebTokenError
    ∧ jwtVerify wDecode "sec" 50 "tok"
        = .ok { userId := wToken.userId, email := wToken.email }
    ∧ verifyToken wDecode "sec" 200 "tok"
        = .error (.authenticationError "Token has expired") :=
  ⟨((token_verification_outcomes wDecode "sec" 200 "tok").1 wToken (by decide)
      (by decide)).mpr (by decide),
   (token_verification_outcomes wDecode "other" 50 "tok").2.1 wToken (by decide)
     (by decide),
   (token_verification_outcomes wDecode "sec" 50 "garbage").2.2.1 (by decide),
   (token_verification_outcomes wDecode "sec" 50 "tok").2.2.2.1 wToken (by decide)
     (by decide) (by decide),
   ((token_verification_outcomes wDecode "sec" 200 "tok").2.2.2.2.2.1).mpr
     (((token_verification_outcomes wDecode "sec" 200 "tok").1 wToken (by decide)
        (by decide)).mpr (by decide))⟩

/-! ## C9 — invalid path id -/

/-- C9 — Invalid path id handling: for an authenticated request to
`/api/grocery-items/[id]` by any of GET, PUT, DELETE whose path segment
fails the handler's `parseInt` (NaN), the response is 400 with error
`"Invalid item ID"` and the table is returned untouched — for every table
alike, so no auth-scoped item lookup can have influenced the outcome. -/
theorem invalid_path_id
    (decode : String → Option JwtToken) (users : List UserRow)
    (secret : String) (now : Nat) (req : ApiRequest) (u : User)
    (idStr : String) (body : UpdateGroceryItemRequest) (db : ItemDb)
    (hauth : authenticate decode users secret now req = .ok u)
    (hnan : jsParseInt idStr = none) :
    apiItemGet decode users secret now req idStr db
      = ({ status := 400, error := some "Invalid item ID", item := none }, db)
    ∧ apiItemPut decode users secret now req idStr body db
      = ({ status := 400, error := some "Invalid item ID", item := none }, db)
    ∧ apiItemDelete decode users secret now req idStr db
      = ({ status := 400, error := some "Invalid item ID", item := none }, db) := by
  refine ⟨?_, ?_, ?_⟩
  · unfold apiItemGet withAuth
    rw [hauth]
    unfold idRouteGetHandler
    rw [hnan]
  · unfold apiItemPut withAuth
    rw [hauth]
    unfold idRoutePutHandler
    rw [hnan]
  · unfold apiItemDelete withAuth
    rw [hauth]
    unfold idRouteDeleteHandler
    rw [hnan]

/-- Witness for C9 at the authenticated concrete request and the
non-numeric path segment `"abc"`. -/
theorem invalid_path_id_witness :
    apiItemGet wDecode [wUserRow] "sec" 50 wReq "abc" wDb1
      = ({ status := 400, error := some "Invalid item ID", item := none }, wDb1)
    ∧ apiItemPut wDecode [wUserRow] "sec" 50 wReq "abc" wPatchQty wDb1
      = ({ status := 400, error := some "Invalid item ID", item := none }, wDb1)
    ∧ apiItemDelete wDecode [wUserRow] "sec" 50 wReq "abc" wDb1
      = ({ status := 400, error := some "Invalid item ID", item := none }, wDb1) :=
  invalid_path_id wDecode [wUserRow] "sec" 50 wReq wUser "abc" wPatchQty wDb1
    (by decide) (by decide)
